import Mathlib

/-
Shallow embedding of ws-pmce-stats (src/wspmcestats.cpp), a WebSocket
per-message compression statistics tool.  It wraps zlib's deflate in a
per-line loop: the zlib calls themselves are modelled abstractly (the
library is an external collaborator), all program logic is translated
from the source.  C++ doubles are modelled as exact rationals; size_t
values as Nat, with the one wrap-sensitive subtraction made explicit;
a C++ field that is read while still uninitialized is modelled as an
Option that is none until first assigned.
-/

/-- wspmcestats.cpp frame_overhead: 4 extra bytes when masked, plus the
variable-length payload size encoding (2 up to 125, 4 up to 0xffff, 8
beyond). -/
def frame_overhead (masked : Bool) (payload_size : Nat) : Nat :=
  (if masked then 4 else 0) +
    (if payload_size ≤ 125 then 2 else if payload_size ≤ 65535 then 4 else 8)

/-- One per-message measurement (wspmcestats.cpp struct line_result).  A
fresh C++ line_result has every field uninitialized; none models a field
the program never assigned. -/
structure line_result where
  payload_size : Option Nat := none
  frame_overhead : Option Nat := none
  frame_overhead_compressed : Option Nat := none
  compressed_size : Option Nat := none
  ratio : Option Rat := none
  elapsed_seconds : Option Rat := none
deriving DecidableEq

/-- Settings, per-line results and aggregates (wspmcestats.cpp struct
test_result).  Only the fields with C++ default member initializers start
defined; the aggregate fields start uninitialized (none). -/
structure test_result where
  error : Bool := false
  is_server : Bool := true
  sending : Bool := true
  context_takeover : Bool := true
  speed_level : Int := 6
  window_bits : Int := 15
  memory_level : Int := 8
  line_results : List line_result := []
  total_payload : Option Nat := none
  total_frame_overhead : Option Nat := none
  total_frame_overhead_compressed : Option Nat := none
  total_compressed_size : Option Nat := none
  total_ratio : Option Rat := none
  total_elapsed_seconds : Option Rat := none
  mem_usage : Option Nat := none
  mem_usage_inflate_32 : Option Nat := none
  mem_usage_inflate_64 : Option Nat := none
deriving DecidableEq

/-- arg.find('=') plus the two substring constructions in load_setting:
splits at the first '=', none when the argument has no '='. -/
def splitAtEq : List Char → Option (List Char × List Char)
  | [] => none
  | c :: cs =>
    if c = '=' then some ([], cs)
    else
      match splitAtEq cs with
      | none => none
      | some (k, v) => some (c :: k, v)

/-- The whitespace class skipped by C atoi (isspace in the "C" locale). -/
def isCSpace (c : Char) : Bool :=
  c = ' ' || c = '\t' || c = '\n' || c = '\r' || c = '\x0b' || c = '\x0c'

/-- Leading-digit accumulator of atoi: consumes decimal digits, stops at
the first non-digit. -/
def atoiDigits : List Char → Int → Int
  | c :: cs, acc =>
    if c.isDigit then atoiDigits cs (acc * 10 + ((c.toNat : Int) - 48)) else acc
  | [], acc => acc

/-- C atoi on the value substring: optional whitespace, optional sign,
leading decimal digits; 0 when no digit is found. -/
def atoi (s : List Char) : Int :=
  match s.dropWhile isCSpace with
  | '-' :: rest => - atoiDigits rest 0
  | '+' :: rest => atoiDigits rest 0
  | s1 => atoiDigits s1 0

/-- test_result::load_setting: splits one key=value token and updates the
field selected by the key.  The keys compared against are exactly the C++
string literals: note the key for the speed setting is "speed_levels". -/
def load_setting (r : test_result) (arg : List Char) : test_result :=
  match splitAtEq arg with
  | none => r
  | some (key, val) =>
    if key = "server".toList then { r with is_server := val == "true".toList }
    else if key = "sending".toList then { r with sending := val == "true".toList }
    else if key = "context_takeover".toList then
      { r with context_takeover := val == "true".toList }
    else if key = "speed_levels".toList then { r with speed_level := atoi val }
    else if key = "window_bits".toList then { r with window_bits := atoi val }
    else if key = "memory_level".toList then { r with memory_level := atoi val }
    else r

/-- test_result::check_validity: each out-of-range parameter sets the
error flag (C++ mutates the member); the Bool is the C++ return value
!error, the struct is the mutated this. -/
def check_validity (r : test_result) : Bool × test_result :=
  let e1 := r.error || decide (r.speed_level > 9) || decide (r.speed_level < 0)
  let e2 := e1 || decide (r.window_bits > 15) || decide (r.window_bits < 8)
  let e3 := e2 || decide (r.memory_level > 9) || decide (r.memory_level < 1)
  (!e3, { r with error := e3 })

/-- Addition where either operand may be an uninitialized C++ value: an
indeterminate operand poisons the sum. -/
def oadd {α : Type} [Add α] : Option α → Option α → Option α
  | some a, some b => some (a + b)
  | _, _ => none

/-- test_result::calc_stats.  The C++ loop adds each record's fields into
five independent accumulators; it resets total_payload,
total_frame_overhead, total_frame_overhead_compressed,
total_compressed_size and total_ratio to 0 first, but not
total_elapsed_seconds, which keeps accumulating from its previous
(initially uninitialized) value.  total_ratio is then overwritten with
total_compressed_size / total_payload, and the memory estimates are
derived from the settings; sizeof_int is sizeof(int) on the build
platform. -/
def calc_stats (sizeof_int : Nat) (r : test_result) : test_result :=
  let tp := r.line_results.foldl (fun a lr => oadd a lr.payload_size) (some 0)
  let tf := r.line_results.foldl (fun a lr => oadd a lr.frame_overhead) (some 0)
  let tfc :=
    r.line_results.foldl (fun a lr => oadd a lr.frame_overhead_compressed) (some 0)
  let tc := r.line_results.foldl (fun a lr => oadd a lr.compressed_size) (some 0)
  let te :=
    r.line_results.foldl (fun a lr => oadd a lr.elapsed_seconds) r.total_elapsed_seconds
  { r with
    total_payload := tp
    total_frame_overhead := tf
    total_frame_overhead_compressed := tfc
    total_compressed_size := tc
    total_elapsed_seconds := te
    total_ratio :=
      match tc, tp with
      | some c, some p => some ((c : Rat) / (p : Rat))
      | _, _ => none
    mem_usage :=
      if r.sending then
        some (2 ^ (r.window_bits + 2).toNat + 2 ^ (r.memory_level + 9).toNat)
      else
        some (2 ^ r.window_bits.toNat + 1440 * 2 * sizeof_int)
    mem_usage_inflate_32 :=
      if r.sending then some (2 ^ r.window_bits.toNat + 1440 * 2 * 4) else some 0
    mem_usage_inflate_64 :=
      if r.sending then some (2 ^ r.window_bits.toNat + 1440 * 2 * 8) else some 0 }

/-- The two zlib flush modes the program uses (Z_SYNC_FLUSH when
context_takeover, Z_FULL_FLUSH otherwise). -/
inductive Flush where
  | sync : Flush
  | full : Flush
deriving DecidableEq

/-- Abstract model of the zlib deflate interface as the program uses it.
σ is the opaque z_stream compression state.  init models
deflateInit2(level, Z_DEFLATED, windowBits, memLevel, Z_DEFAULT_STRATEGY)
with none a failed setup; step models one deflate(&state, flush) call on a
whole message, giving the number of output bytes the compressor emits when
given enough room, and the successor state; bound models
deflateBound(&state, len); time is the wall-clock duration of the deflate
call measured by the surrounding high_resolution_clock reads. -/
structure ZlibModel (σ : Type) where
  init : Int → Int → Int → Option σ
  step : σ → List Nat → Flush → Nat × σ
  bound : σ → Nat → Nat
  time : σ → List Nat → Rat

/-- size_t subtraction (wrap-around mod 2^64), used for the
out_buf.cursor()-4 trailer strip. -/
def szSub (a b : Nat) : Nat := (a + (2 ^ 64 - b % 2 ^ 64)) % 2 ^ 64

/-- The while(getline) loop of deflate_test.  s is the z_stream state, cap
the pod_buffer capacity: resize only ever grows it and each iteration
rewinds the cursor to 0, so avail() at the deflate call is the whole
capacity.  An empty line is recorded without touching the context; a
nonempty line is compressed, the run aborts with the error flag when the
output buffer was filled to its end, otherwise the record gets the output
size minus the 4-byte trailer, its compressed-frame overhead and ratio. -/
def deflateLoop {σ : Type} (m : ZlibModel σ) (fl : Flush) (mask : Bool) :
    List (List Nat) → σ → Nat → test_result → test_result
  | [], _, _, r => r
  | line :: rest, s, cap, r =>
    let lr1 : line_result :=
      { payload_size := some line.length
        frame_overhead := some (frame_overhead mask line.length) }
    if line.length = 0 then
      deflateLoop m fl mask rest s cap
        { r with line_results := r.line_results ++
            [{ lr1 with compressed_size := some 2, ratio := some 2 }] }
    else
      let est := m.bound s line.length
      let cap1 := max cap est
      let out := m.step s line fl
      let written := min out.1 cap1
      if cap1 - written = 0 then
        { r with error := true }
      else
        let csize := szSub written 4
        let lr2 :=
          { lr1 with
            elapsed_seconds := some (m.time s line)
            compressed_size := some csize
            frame_overhead_compressed := some (frame_overhead mask csize)
            ratio := some ((csize : Rat) / (line.length : Rat)) }
        deflateLoop m fl mask rest out.2 cap1
          { r with line_results := r.line_results ++ [lr2] }

/-- What deflate_test hands back, with a ghost flag recording whether the
deflate context created by deflateInit2 is still allocated at the return:
the source contains no deflateEnd call, so no path ever clears it. -/
structure DxResult where
  result : test_result
  ctx_allocated : Bool
deriving DecidableEq

/-- wspmcestats.cpp deflate_test: validate the settings, set up the
context via deflateInit2(speed_level, Z_DEFLATED, -1*window_bits,
memory_level, Z_DEFAULT_STRATEGY), pick the flush mode from
context_takeover, then run the per-line loop. -/
def deflate_test {σ : Type} (m : ZlibModel σ) (lines : List (List Nat))
    (r : test_result) : DxResult :=
  let v := check_validity r
  if !v.1 then { result := v.2, ctx_allocated := false }
  else
    match m.init v.2.speed_level (-1 * v.2.window_bits) v.2.memory_level with
    | none => { result := { v.2 with error := true }, ctx_allocated := false }
    | some s0 =>
      let fl := if v.2.context_takeover then Flush.sync else Flush.full
      { result := deflateLoop m fl (!v.2.is_server) lines s0 0 v.2
        ctx_allocated := true }

/-- Outcome of main's argument loop: --help or -h prints the help text and
exits 0 before anything runs; otherwise load_setting is folded over the
arguments. -/
inductive ArgsOut where
  | help : ArgsOut
  | settings : test_result → ArgsOut
deriving DecidableEq

/-- main's for-loop over argv. -/
def parseArgs (r : test_result) : List (List Char) → ArgsOut
  | [] => ArgsOut.settings r
  | a :: rest =>
    if a == "--help".toList || a == "-h".toList then ArgsOut.help
    else parseArgs (load_setting r a) rest

/-- What one whole process run produces: the exit status, whether
print_stats ran (i.e. a summary report was produced), and the final
struct. -/
structure MainResult where
  exit_code : Nat
  reported : Bool
  result : test_result
deriving DecidableEq

/-- The settings main assigns before reading arguments (the same values as
the member initializers). -/
def initSettings : test_result := {}

/-- wspmcestats.cpp main: defaults, the argument loop, deflate_test over
stdin's lines, then either the fatal-error message and exit 1, or
print_stats (which calls calc_stats) and exit 0. -/
def mainRun {σ : Type} (m : ZlibModel σ) (sizeof_int : Nat)
    (args : List (List Char)) (lines : List (List Nat)) : MainResult :=
  match parseArgs initSettings args with
  | ArgsOut.help => { exit_code := 0, reported := false, result := initSettings }
  | ArgsOut.settings r =>
    let d := deflate_test m lines r
    if d.result.error then
      { exit_code := 1, reported := false, result := d.result }
    else
      { exit_code := 0, reported := true, result := calc_stats sizeof_int d.result }

/-- A concrete zlib-model instance for concrete runs: init always
succeeds, a deflate step on a line emits length+5 bytes, deflateBound
answers length+10, calls take zero time. -/
def mdl : ZlibModel Unit where
  init := fun _ _ _ => some ()
  step := fun _ l _ => (l.length + 5, ())
  bound := fun _ n => n + 10
  time := fun _ _ => 0

/-- A model whose deflateBound is an under-estimate, so the first deflate
step on a nonempty line fills the output buffer to its end. -/
def mdlTight : ZlibModel Unit where
  init := fun _ _ _ => some ()
  step := fun _ l _ => (l.length + 5, ())
  bound := fun _ _ => 1
  time := fun _ _ => 0

/-- check_validity changes only the error flag: the setting fields of the
struct it returns are those of its argument. -/
@[simp] theorem check_validity_speed (r : test_result) :
    (check_validity r).2.speed_level = r.speed_level := rfl

@[simp] theorem check_validity_window (r : test_result) :
    (check_validity r).2.window_bits = r.window_bits := rfl

@[simp] theorem check_validity_memory (r : test_result) :
    (check_validity r).2.memory_level = r.memory_level := rfl

@[simp] theorem check_validity_takeover (r : test_result) :
    (check_validity r).2.context_takeover = r.context_takeover := rfl

@[simp] theorem check_validity_server (r : test_result) :
    (check_validity r).2.is_server = r.is_server := rfl

@[simp] theorem check_validity_results (r : test_result) :
    (check_validity r).2.line_results = r.line_results := rfl

/-- The error flag check_validity leaves in the struct is the negation of
its returned value. -/
theorem check_validity_error (r : test_result) :
    (check_validity r).2.error = !(check_validity r).1 := by
  simp [check_validity]

/-- C10: frame_overhead without masking is 2 for payloads up to 125, 4
from 126 through 65535, 8 from 65536 up (boundaries inclusive on the
smaller encoding), and masking always adds exactly 4. -/
theorem c10_frame_overhead_boundaries (p : Nat) :
    (p ≤ 125 → frame_overhead false p = 2) ∧
    (126 ≤ p → p ≤ 65535 → frame_overhead false p = 4) ∧
    (65536 ≤ p → frame_overhead false p = 8) ∧
    frame_overhead true p = frame_overhead false p + 4 := by
  unfold frame_overhead
  refine ⟨fun h => ?_, fun h1 h2 => ?_, fun h => ?_, ?_⟩ <;>
    split_ifs <;> simp_all <;> omega

/-- C10 witness: the boundary payloads 125, 126, 65535, 65536, and the
masked variant, via c10_frame_overhead_boundaries. -/
theorem c10_witness :
    frame_overhead false 125 = 2 ∧ frame_overhead false 126 = 4 ∧
    frame_overhead false 65535 = 4 ∧ frame_overhead false 65536 = 8 ∧
    frame_overhead true 65536 = frame_overhead false 65536 + 4 :=
  ⟨(c10_frame_overhead_boundaries 125).1 (by decide),
   (c10_frame_overhead_boundaries 126).2.1 (by decide) (by decide),
   (c10_frame_overhead_boundaries 65535).2.1 (by decide) (by decide),
   (c10_frame_overhead_boundaries 65536).2.2.1 (by decide),
   (c10_frame_overhead_boundaries 65536).2.2.2⟩

/-- C7: the memory estimates calc_stats derives, for any stored records:
when sending, compression side 2^(window_bits+2) + 2^(memory_level+9) and
the two peer inflate figures for 4- and 8-byte integers; when receiving,
the single platform-native inflate figure, with both peer figures zero. -/
theorem c7_memory_formulas (sizeof_int : Nat) (r : test_result) (w l : Nat)
    (hw : r.window_bits = (w : Int)) (hl : r.memory_level = (l : Int)) :
    ((calc_stats sizeof_int r).mem_usage,
     (calc_stats sizeof_int r).mem_usage_inflate_32,
     (calc_stats sizeof_int r).mem_usage_inflate_64) =
      if r.sending then
        (some (2 ^ (w + 2) + 2 ^ (l + 9)),
         some (2 ^ w + 1440 * 2 * 4),
         some (2 ^ w + 1440 * 2 * 8))
      else
        (some (2 ^ w + 1440 * 2 * sizeof_int), some 0, some 0) := by
  have e1 : (r.window_bits + 2).toNat = w + 2 := by rw [hw]; omega
  have e2 : (r.memory_level + 9).toNat = l + 9 := by rw [hl]; omega
  have e3 : r.window_bits.toNat = w := by rw [hw]; omega
  by_cases hs : r.sending <;> simp [calc_stats, hs, e1, e2, e3]

/-- Receiving-side settings for the C7 witness. -/
def recvCfg : test_result := { sending := false }

/-- C7 witness: window_bits=15, memory_level=8 sending gives exactly
262144 bytes of compression state plus the two peer figures; receiving on
an 8-byte-int platform gives the single native figure and zeros. -/
theorem c7_witness :
    ((calc_stats 4 initSettings).mem_usage,
     (calc_stats 4 initSettings).mem_usage_inflate_32,
     (calc_stats 4 initSettings).mem_usage_inflate_64) =
      (some 262144, some (2 ^ 15 + 1440 * 2 * 4), some (2 ^ 15 + 1440 * 2 * 8)) ∧
    ((calc_stats 8 recvCfg).mem_usage,
     (calc_stats 8 recvCfg).mem_usage_inflate_32,
     (calc_stats 8 recvCfg).mem_usage_inflate_64) =
      (some (2 ^ 15 + 1440 * 2 * 8), some 0, some 0) :=
  ⟨(c7_memory_formulas 4 initSettings 15 8 rfl rfl).trans (by decide),
   (c7_memory_formulas 8 recvCfg 15 8 rfl rfl).trans (by decide)⟩

/-- A fully-initialized per-message record (10 payload bytes, 5 compressed,
1 second) for exhibiting calc_stats's missing reset. -/
def lrEx : line_result :=
  { payload_size := some 10, frame_overhead := some 2,
    frame_overhead_compressed := some 2, compressed_size := some 5,
    ratio := some (1 / 2), elapsed_seconds := some 1 }

/-- A test_result holding lrEx whose total_elapsed_seconds happens to hold
0 (in C++ the field starts uninitialized; some 0 stands for the luckiest
possible initial memory contents). -/
def trEx : test_result := { line_results := [lrEx], total_elapsed_seconds := some 0 }

/-- C2 (code bug shown): calc_stats sets every other total to the sum over
the records and total_ratio to the quotient, but it does not reset
total_elapsed_seconds: a second call doubles it (some 2, not the record
sum some 1), and from the genuinely uninitialized initial state the result
stays indeterminate. -/
theorem c2_bug_eval :
    (calc_stats 4 trEx).total_elapsed_seconds = some 1 ∧
    (calc_stats 4 (calc_stats 4 trEx)).total_elapsed_seconds = some 2 ∧
    (calc_stats 4 (calc_stats 4 trEx)).total_payload = some 10 ∧
    (calc_stats 4 trEx).total_payload = some 10 ∧
    (calc_stats 4 trEx).total_compressed_size = some 5 ∧
    (calc_stats 4 trEx).total_ratio = some ((5 : Rat) / (10 : Rat)) ∧
    (calc_stats 4 { trEx with total_elapsed_seconds := none }).total_elapsed_seconds
      = none := by
  refine ⟨?_, ?_, ?_, ?_, ?_, ?_, ?_⟩ <;> norm_num [calc_stats, trEx, lrEx, oadd]

/-- C3 (code bug shown): the key the code recognizes for the speed setting
is "speed_levels"; the documented key "speed_level" is silently ignored.
The other documented behaviors hold: booleans are true only for the
literal "true", malformed integers parse to 0, unknown keys and tokens
without '=' leave the settings unchanged. -/
theorem c3_bug_eval :
    load_setting initSettings ("speed_level=3".toList) = initSettings ∧
    (load_setting initSettings ("speed_levels=3".toList)).speed_level = 3 ∧
    initSettings.speed_level = 6 ∧
    (load_setting initSettings ("window_bits=xyz".toList)).window_bits = 0 ∧
    (load_setting initSettings ("server=TRUE".toList)).is_server = false ∧
    load_setting initSettings ("bogus_key=1".toList) = initSettings ∧
    load_setting initSettings ("noequals".toList) = initSettings := by decide

/-- C5 (code bug shown): on an empty input line the record gets payload 0,
frame overhead at size 0, compressed_size 2 and ratio 2 without any
deflate call (the same record results under a model whose deflate would
exhaust the buffer), but elapsed_seconds and frame_overhead_compressed
are left uninitialized, where the claim requires elapsed_time = 0. -/
theorem c5_bug_eval :
    (deflate_test mdl [[]] initSettings).result.line_results =
      [{ payload_size := some 0, frame_overhead := some (frame_overhead false 0),
         frame_overhead_compressed := none, compressed_size := some 2,
         ratio := some 2, elapsed_seconds := none }] ∧
    frame_overhead false 0 = 2 ∧
    (deflate_test mdl [[]] initSettings).result.error = false ∧
    (deflate_test mdlTight [[]] initSettings).result.line_results =
      (deflate_test mdl [[]] initSettings).result.line_results := by decide

/-- C4 (amended): deflate_test never releases the deflate context: it
returns with the context still allocated exactly when check_validity
passed and deflateInit2 succeeded (the two early-failure paths never
allocate one); the source has no deflateEnd, so release is left to
process exit. -/
theorem c4_never_released (σ : Type) (m : ZlibModel σ) (lines : List (List Nat))
    (r : test_result) :
    (deflate_test m lines r).ctx_allocated =
      ((check_validity r).1 &&
        (m.init r.speed_level (-1 * r.window_bits) r.memory_level).isSome) := by
  unfold deflate_test
  by_cases h : (check_validity r).1
  · simp only [h, Bool.not_true, Bool.true_and, if_false, check_validity_speed,
      check_validity_window, check_validity_memory]
    cases hi : m.init r.speed_level (-1 * r.window_bits) r.memory_level <;> simp [hi]
  · simp only [Bool.not_eq_true] at h
    simp [h]

/-- C4 counterexample: a normal, error-free run (default settings, one
message fully processed) that returns with the context still allocated,
against the claim that every exit path releases it. -/
theorem c4_counterexample :
    (deflate_test mdl [[97]] initSettings).ctx_allocated = true ∧
    (deflate_test mdl [[97]] initSettings).result.error = false ∧
    (deflate_test mdl [[97]] initSettings).result.line_results.length = 1 := by decide

/-- Client-receiving settings: by the claim the masking flag must be false
when receiving, whatever the role. -/
def clientRecv : test_result := { is_server := false, sending := false }

/-- C1 counterexample: simulating a client that is receiving, the code
records both frame overheads with the masking flag true (6 = 2+4 bytes for
a 1-byte payload), though the claim requires the flag to be false whenever
direction is receiving. -/
theorem c1_counterexample :
    (deflate_test mdl [[97]] clientRecv).result.line_results.map
        (fun lr => lr.frame_overhead) = [some (frame_overhead true 1)] ∧
    (deflate_test mdl [[97]] clientRecv).result.line_results.map
        (fun lr => lr.frame_overhead_compressed) = [some (frame_overhead true 2)] ∧
    clientRecv.sending = false ∧ clientRecv.is_server = false ∧
    frame_overhead true 1 ≠ frame_overhead false 1 ∧
    frame_overhead true 2 ≠ frame_overhead false 2 := by decide

/-- Loop invariant: a property holding of the two record shapes the loop
can append, and of the records already stored, holds of every record the
loop leaves behind (also on the fatal early return, which appends
nothing). -/
theorem deflateLoop_inv {σ : Type} (m : ZlibModel σ) (fl : Flush) (mask : Bool)
    (P : line_result → Prop)
    (hemp : P { payload_size := some 0, frame_overhead := some (frame_overhead mask 0),
                compressed_size := some 2, ratio := some 2 })
    (hfull : ∀ (n c : Nat) (t : Rat), n ≠ 0 →
      P { payload_size := some n, frame_overhead := some (frame_overhead mask n),
          frame_overhead_compressed := some (frame_overhead mask c),
          compressed_size := some c, ratio := some ((c : Rat) / (n : Rat)),
          elapsed_seconds := some t }) :
    ∀ (lines : List (List Nat)) (s : σ) (cap : Nat) (r : test_result),
      (∀ lr ∈ r.line_results, P lr) →
      ∀ lr ∈ (deflateLoop m fl mask lines s cap r).line_results, P lr := by
  intro lines
  induction lines with
  | nil => intro s cap r h; simpa [deflateLoop] using h
  | cons line rest ih =>
    intro s cap r h
    simp only [deflateLoop]
    by_cases hl : line.length = 0
    · rw [if_pos hl]
      apply ih
      intro lr hlr
      rcases List.mem_append.mp hlr with h1 | h2
      · exact h lr h1
      · rw [List.mem_singleton.mp h2, hl]
        exact hemp
    · rw [if_neg hl]
      by_cases hc : max cap (m.bound s line.length) -
          min (m.step s line fl).1 (max cap (m.bound s line.length)) = 0
      · rw [if_pos hc]
        exact h
      · rw [if_neg hc]
        apply ih
        intro lr hlr
        rcases List.mem_append.mp hlr with h1 | h2
        · exact h lr h1
        · rw [List.mem_singleton.mp h2]
          exact hfull line.length _ _ hl

/-- When validation passes and deflateInit2 succeeds, deflate_test is the
per-line loop started from the fresh context, empty buffer, and the
validated struct — and the context stays allocated. -/
theorem deflate_test_eq_loop {σ : Type} (m : ZlibModel σ) (lines : List (List Nat))
    (r : test_result) (s0 : σ)
    (hv : (check_validity r).1 = true)
    (hi : m.init r.speed_level (-1 * r.window_bits) r.memory_level = some s0) :
    deflate_test m lines r =
      { result := deflateLoop m (if r.context_takeover then Flush.sync else Flush.full)
          (!r.is_server) lines s0 0 (check_validity r).2,
        ctx_allocated := true } := by
  rw [neg_one_mul] at hi
  unfold deflate_test
  simp [hv, hi]

/-- When validation fails, deflate_test returns the validated struct
(error set) untouched: no context, no records beyond the stored ones. -/
theorem deflate_test_invalid {σ : Type} (m : ZlibModel σ) (lines : List (List Nat))
    (r : test_result) (hv : (check_validity r).1 = false) :
    deflate_test m lines r = { result := (check_validity r).2, ctx_allocated := false } := by
  unfold deflate_test
  simp [hv]

/-- C1 (amended): every recorded frame overhead — uncompressed, and
compressed where it is recorded at all — is computed with the masking
flag true exactly when the role is client (is_server = false), regardless
of the direction setting; on empty messages the compressed overhead is
never computed (its field stays unset). -/
theorem c1_mask_is_client (σ : Type) (m : ZlibModel σ) (lines : List (List Nat))
    (r : test_result) (h0 : r.line_results = []) :
    ((deflate_test m lines r).result.line_results.map (fun lr => lr.frame_overhead) =
      (deflate_test m lines r).result.line_results.map
        (fun lr => lr.payload_size.map (frame_overhead (!r.is_server)))) ∧
    ((deflate_test m lines r).result.line_results.map
        (fun lr => lr.frame_overhead_compressed) =
      (deflate_test m lines r).result.line_results.map
        (fun lr => if lr.payload_size = some 0 then none
                   else lr.compressed_size.map (frame_overhead (!r.is_server)))) := by
  have key : ∀ lr ∈ (deflate_test m lines r).result.line_results,
      lr.frame_overhead = lr.payload_size.map (frame_overhead (!r.is_server)) ∧
      lr.frame_overhead_compressed = (if lr.payload_size = some 0 then none
        else lr.compressed_size.map (frame_overhead (!r.is_server))) := by
    by_cases hv : (check_validity r).1
    · cases hi : m.init r.speed_level (-1 * r.window_bits) r.memory_level with
      | none =>
        rw [neg_one_mul] at hi
        unfold deflate_test
        simp [hv, hi, h0]
      | some s0 =>
        rw [deflate_test_eq_loop m lines r s0 hv hi]
        refine deflateLoop_inv m _ (!r.is_server)
          (fun lr => lr.frame_overhead = lr.payload_size.map (frame_overhead (!r.is_server)) ∧
            lr.frame_overhead_compressed = (if lr.payload_size = some 0 then none
              else lr.compressed_size.map (frame_overhead (!r.is_server))))
          ?_ ?_ lines s0 0 (check_validity r).2 ?_
        · constructor <;> simp
        · intro n c t hn
          constructor <;> simp [Option.map, hn]
        · rw [check_validity_results, h0]
          intro lr hlr
          exact absurd hlr (List.not_mem_nil lr)
    · rw [deflate_test_invalid m lines r (by simpa using hv)]
      simp [h0]
  exact ⟨List.map_congr_left (fun lr hlr => (key lr hlr).1),
         List.map_congr_left (fun lr hlr => (key lr hlr).2)⟩

/-- C1 witness: a client-receiving run on one nonempty and one empty line,
instantiating c1_mask_is_client. -/
theorem c1_witness :
    ((deflate_test mdl [[97], []] clientRecv).result.line_results.map
        (fun lr => lr.frame_overhead) =
      (deflate_test mdl [[97], []] clientRecv).result.line_results.map
        (fun lr => lr.payload_size.map (frame_overhead (!clientRecv.is_server)))) ∧
    ((deflate_test mdl [[97], []] clientRecv).result.line_results.map
        (fun lr => lr.frame_overhead_compressed) =
      (deflate_test mdl [[97], []] clientRecv).result.line_results.map
        (fun lr => if lr.payload_size = some 0 then none
                   else lr.compressed_size.map (frame_overhead (!clientRecv.is_server)))) :=
  c1_mask_is_client Unit mdl [[97], []] clientRecv rfl

/-- The compressed size one line gets when every deflate call starts from
the reset state s0: a function of the line alone. -/
def pureSize {σ : Type} (m : ZlibModel σ) (s0 : σ) (line : List Nat) : Nat :=
  if line.length = 0 then 2 else szSub (m.step s0 line Flush.full).1 4

/-- The record one line gets when every deflate call starts from the reset
state s0. -/
def recOf {σ : Type} (m : ZlibModel σ) (mask : Bool) (s0 : σ) (line : List Nat) :
    line_result :=
  if line.length = 0 then
    { payload_size := some line.length
      frame_overhead := some (frame_overhead mask line.length)
      compressed_size := some 2, ratio := some 2 }
  else
    { payload_size := some line.length
      frame_overhead := some (frame_overhead mask line.length)
      elapsed_seconds := some (m.time s0 line)
      compressed_size := some (pureSize m s0 line)
      frame_overhead_compressed := some (frame_overhead mask (pureSize m s0 line))
      ratio := some ((pureSize m s0 line : Rat) / (line.length : Rat)) }

/-- recOf records the line's pure compressed size on both branches. -/
theorem recOf_compressed {σ : Type} (m : ZlibModel σ) (mask : Bool) (s0 : σ)
    (line : List Nat) :
    (recOf m mask s0 line).compressed_size = some (pureSize m s0 line) := by
  unfold recOf pureSize
  split_ifs <;> rfl

/-- Under Z_FULL_FLUSH semantics (every step returns to the post-init
state s0) and a deflateBound that strictly over-estimates each step's
output, the loop started at s0 never errors and appends exactly the pure
per-line records, whatever the buffer capacity. -/
theorem deflateLoop_full_reset {σ : Type} (m : ZlibModel σ) (mask : Bool) (s0 : σ)
    (hreset : ∀ (s : σ) (line : List Nat), (m.step s line Flush.full).2 = s0)
    (hbound : ∀ line : List Nat, line.length ≠ 0 →
      (m.step s0 line Flush.full).1 < m.bound s0 line.length) :
    ∀ (lines : List (List Nat)) (cap : Nat) (r : test_result),
      deflateLoop m Flush.full mask lines s0 cap r =
        { r with line_results := r.line_results ++ lines.map (recOf m mask s0) } := by
  intro lines
  induction lines with
  | nil => intro cap r; simp [deflateLoop]
  | cons line rest ih =>
    intro cap r
    simp only [deflateLoop]
    by_cases hl : line.length = 0
    · rw [if_pos hl, ih]
      simp [recOf, hl, List.append_assoc]
    · rw [if_neg hl]
      have hb := hbound line hl
      have hw : min (m.step s0 line Flush.full).1 (max cap (m.bound s0 line.length)) =
          (m.step s0 line Flush.full).1 :=
        min_eq_left (le_trans hb.le (le_max_right _ _))
      have hcap : (m.step s0 line Flush.full).1 < max cap (m.bound s0 line.length) :=
        lt_of_lt_of_le hb (le_max_right cap _)
      have hc : ¬ (max cap (m.bound s0 line.length) -
          min (m.step s0 line Flush.full).1 (max cap (m.bound s0 line.length)) = 0) := by
        rw [hw]; omega
      rw [if_neg hc, hreset, ih]
      simp only [recOf, pureSize, if_neg hl, hw, List.map_cons, List.append_assoc,
        List.singleton_append]

/-- C6: with context_takeover=false the loop runs with Z_FULL_FLUSH, whose
documented semantics (modelled by hreset: every call leaves the post-init
state) make every line's recorded compressed size the pure function
pureSize of that line alone — hence reordering the input lines permutes
the recorded size list accordingly, changing no individual line's size. -/
theorem c6_full_flush_independent (σ : Type) (m : ZlibModel σ) (r : test_result)
    (s0 : σ)
    (hct : r.context_takeover = false)
    (hv : (check_validity r).1 = true)
    (hinit : m.init r.speed_level (-1 * r.window_bits) r.memory_level = some s0)
    (hres : r.line_results = [])
    (hreset : ∀ (s : σ) (line : List Nat), (m.step s line Flush.full).2 = s0)
    (hbound : ∀ line : List Nat, line.length ≠ 0 →
      (m.step s0 line Flush.full).1 < m.bound s0 line.length) :
    (∀ lines : List (List Nat),
      (deflate_test m lines r).result.line_results.map (fun lr => lr.compressed_size) =
        lines.map (fun line => some (pureSize m s0 line))) ∧
    (∀ lines1 lines2 : List (List Nat), lines1.Perm lines2 →
      ((deflate_test m lines1 r).result.line_results.map
          (fun lr => lr.compressed_size)).Perm
        ((deflate_test m lines2 r).result.line_results.map
          (fun lr => lr.compressed_size))) := by
  have hone : ∀ lines : List (List Nat),
      (deflate_test m lines r).result.line_results.map (fun lr => lr.compressed_size) =
        lines.map (fun line => some (pureSize m s0 line)) := by
    intro lines
    rw [deflate_test_eq_loop m lines r s0 hv hinit, hct]
    rw [show (if (false : Bool) = true then Flush.sync else Flush.full) = Flush.full
      from rfl]
    rw [deflateLoop_full_reset m (!r.is_server) s0 hreset hbound lines 0
      (check_validity r).2]
    simp only [check_validity_results, hres, List.nil_append, List.map_map]
    exact List.map_congr_left (fun line _ => recOf_compressed m (!r.is_server) s0 line)
  exact ⟨hone, fun lines1 lines2 hp => by rw [hone, hone]; exact hp.map _⟩

/-- Settings for the C6 witness: default except context_takeover=false. -/
def ctFalse : test_result := { context_takeover := false }

/-- C6 witness: a two-line run whose recorded compressed sizes are the
per-line pure sizes, and its reordering, whose size list is the matching
permutation, via c6_full_flush_independent. -/
theorem c6_witness :
    (deflate_test mdl [[97], [98, 98]] ctFalse).result.line_results.map
        (fun lr => lr.compressed_size) =
      [[97], [98, 98]].map (fun line => some (pureSize mdl () line)) ∧
    ((deflate_test mdl [[97], [98, 98]] ctFalse).result.line_results.map
        (fun lr => lr.compressed_size)).Perm
      ((deflate_test mdl [[98, 98], [97]] ctFalse).result.line_results.map
        (fun lr => lr.compressed_size)) := by
  have h := c6_full_flush_independent Unit mdl ctFalse () rfl (by decide) rfl rfl
    (fun s line => rfl)
    (fun line hl => by show line.length + 5 < line.length + 10; omega)
  exact ⟨h.1 [[97], [98, 98]], h.2 [[97], [98, 98]] [[98, 98], [97]] (by decide)⟩

/-- C8: check_validity of a fresh (error-free) struct accepts exactly
speed_level in [0,9], window_bits in [8,15] and memory_level in [1,9];
and whenever it rejects, deflate_test returns in the error state with no
context ever created and no message processed. -/
theorem c8_validation (r : test_result) (σ : Type) (m : ZlibModel σ)
    (lines : List (List Nat)) (h : r.error = false) :
    ((check_validity r).1 = true ↔
      (0 ≤ r.speed_level ∧ r.speed_level ≤ 9 ∧ 8 ≤ r.window_bits ∧
       r.window_bits ≤ 15 ∧ 1 ≤ r.memory_level ∧ r.memory_level ≤ 9)) ∧
    ((check_validity r).1 = false →
      (deflate_test m lines r).result.error = true ∧
      (deflate_test m lines r).ctx_allocated = false ∧
      (deflate_test m lines r).result.line_results = r.line_results) := by
  constructor
  · simp only [check_validity, h]
    simp only [Bool.false_or, Bool.not_or, Bool.and_eq_true, Bool.not_eq_true',
      decide_eq_false_iff_not, not_lt]
    omega
  · intro hf
    rw [deflate_test_invalid m lines r hf]
    refine ⟨?_, rfl, check_validity_results r⟩
    rw [check_validity_error, hf]
    rfl

/-- An out-of-range configuration (speed_level 10) for the C8 witness. -/
def invalidCfg : test_result := { speed_level := 10 }

/-- A boundary-value configuration (speed 0, window 8, memory 1) for the
C8 witness. -/
def boundaryCfg : test_result := { speed_level := 0, window_bits := 8, memory_level := 1 }

/-- C8 witness: speed_level=10 is rejected and the run aborts before any
context or record exists; the boundary values 0/8/1 are accepted — both
through c8_validation. -/
theorem c8_witness :
    (deflate_test mdl [[97]] invalidCfg).result.error = true ∧
    (deflate_test mdl [[97]] invalidCfg).ctx_allocated = false ∧
    (deflate_test mdl [[97]] invalidCfg).result.line_results = [] ∧
    (check_validity boundaryCfg).1 = true :=
  ⟨((c8_validation invalidCfg Unit mdl [[97]] rfl).2 (by decide)).1,
   ((c8_validation invalidCfg Unit mdl [[97]] rfl).2 (by decide)).2.1,
   ((c8_validation invalidCfg Unit mdl [[97]] rfl).2 (by decide)).2.2,
   (c8_validation boundaryCfg Unit mdl [] rfl).1.mpr (by decide)⟩

/-- When every deflate step's output stays below deflateBound's estimate,
the loop never takes the fatal branch: the error flag it returns is the
one it was given. -/
theorem deflateLoop_error_stable {σ : Type} (m : ZlibModel σ) (fl : Flush)
    (mask : Bool)
    (hb : ∀ (s : σ) (line : List Nat), line.length ≠ 0 →
      (m.step s line fl).1 < m.bound s line.length) :
    ∀ (lines : List (List Nat)) (s : σ) (cap : Nat) (r : test_result),
      (deflateLoop m fl mask lines s cap r).error = r.error := by
  intro lines
  induction lines with
  | nil => intro s cap r; rfl
  | cons line rest ih =>
    intro s cap r
    simp only [deflateLoop]
    by_cases hl : line.length = 0
    · rw [if_pos hl, ih]
    · rw [if_neg hl]
      have hbl := hb s line hl
      have hw : min (m.step s line fl).1 (max cap (m.bound s line.length)) =
          (m.step s line fl).1 :=
        min_eq_left (le_trans hbl.le (le_max_right _ _))
      have hcap : (m.step s line fl).1 < max cap (m.bound s line.length) :=
        lt_of_lt_of_le hbl (le_max_right cap _)
      have hc : ¬ (max cap (m.bound s line.length) -
          min (m.step s line fl).1 (max cap (m.bound s line.length)) = 0) := by
        rw [hw]; omega
      rw [if_neg hc, ih]

/-- C9: a compression step that leaves zero bytes available makes the loop
return at once with the error flag set and nothing appended for that or
any later message; main exits 1 without a report exactly when the run
errored; and a run whose settings validate, whose deflateInit2 succeeds
and whose steps never exhaust the buffer exits 0 with the report. -/
theorem c9_exhaustion_fatal (σ : Type) (m : ZlibModel σ) (sizeof_int : Nat)
    (args : List (List Char)) (lines : List (List Nat)) (r : test_result)
    (hargs : parseArgs initSettings args = ArgsOut.settings r) :
    ((mainRun m sizeof_int args lines).exit_code =
      if (deflate_test m lines r).result.error then 1 else 0) ∧
    ((mainRun m sizeof_int args lines).reported =
      !(deflate_test m lines r).result.error) ∧
    (∀ (fl : Flush) (mask : Bool) (line : List Nat) (rest : List (List Nat))
        (s : σ) (cap : Nat) (t : test_result), line.length ≠ 0 →
      max cap (m.bound s line.length) -
          min (m.step s line fl).1 (max cap (m.bound s line.length)) = 0 →
      deflateLoop m fl mask (line :: rest) s cap t = { t with error := true }) ∧
    ((check_validity r).1 = true →
      (m.init r.speed_level (-1 * r.window_bits) r.memory_level).isSome = true →
      (∀ (fl : Flush) (s : σ) (line : List Nat), line.length ≠ 0 →
        (m.step s line fl).1 < m.bound s line.length) →
      (mainRun m sizeof_int args lines).exit_code = 0 ∧
      (mainRun m sizeof_int args lines).reported = true) := by
  have hmain : ∀ (e : Bool), (deflate_test m lines r).result.error = e →
      (mainRun m sizeof_int args lines).exit_code = (if e then 1 else 0) ∧
      (mainRun m sizeof_int args lines).reported = !e := by
    intro e he
    unfold mainRun
    rw [hargs]
    cases e <;> simp [he]
  refine ⟨(hmain _ rfl).1, (hmain _ rfl).2, ?_, ?_⟩
  · intro fl mask line rest s cap t hl hc
    simp only [deflateLoop]
    rw [if_neg hl, if_pos hc]
  · intro hv hinit hb
    obtain ⟨s0, hs0⟩ := Option.isSome_iff_exists.mp hinit
    have herr : (deflate_test m lines r).result.error = false := by
      rw [deflate_test_eq_loop m lines r s0 hv hs0]
      show (deflateLoop m _ (!r.is_server) lines s0 0 (check_validity r).2).error = false
      rw [deflateLoop_error_stable m _ (!r.is_server) (hb _) lines s0 0
        (check_validity r).2]
      rw [check_validity_error, hv]
      rfl
    exact ⟨((hmain false herr).1).trans rfl, (hmain false herr).2⟩

/-- C9 witness: under the under-estimating model the one-message run
exits 1 with no report and the loop's first step aborts with only the
error flag set; under the sound model the same run exits 0 with the
report — all via c9_exhaustion_fatal. -/
theorem c9_witness :
    (mainRun mdlTight 4 [] [[97]]).exit_code = 1 ∧
    (mainRun mdlTight 4 [] [[97]]).reported = false ∧
    deflateLoop mdlTight Flush.sync false [[97]] () 0 initSettings =
      { initSettings with error := true } ∧
    (mainRun mdl 4 [] [[97]]).exit_code = 0 ∧
    (mainRun mdl 4 [] [[97]]).reported = true := by
  have h1 := c9_exhaustion_fatal Unit mdlTight 4 [] [[97]] initSettings rfl
  have h2 := c9_exhaustion_fatal Unit mdl 4 [] [[97]] initSettings rfl
  exact ⟨h1.1.trans (by decide), h1.2.1.trans (by decide),
    h1.2.2.1 Flush.sync false [97] [] () 0 initSettings (by decide) (by decide),
    (h2.2.2.2 (by decide) rfl
      (fun fl s line hl => by show line.length + 5 < line.length + 10; omega)).1,
    (h2.2.2.2 (by decide) rfl
      (fun fl s line hl => by show line.length + 5 < line.length + 10; omega)).2⟩
